import Mathlib

/-!
Verification development for the interaction-capture and test-case-synthesis
pipeline of the AI QA test generator.

The definitions below are a shallow embedding of the TypeScript sources:
* `RecordingService` (session lifecycle controller) — `startRecording`,
  `stopRecording`, `pauseRecording`, `resumeRecording`, `completeSession`,
  `recordInteraction`, `recordApiCall`;
* `TestCaseGenerator.parseAIResponse` and its helpers;
* `FileDownloadService` (format renderer) — `generateFileContent`,
  `generatePytestFile`, `generateSeleniumBDDFiles`, `generateGherkinFile`,
  `generateGherkinSteps`, `generateFilename`, and casing helpers;
* the `getSelector` helper of the injected recording script.

Wall-clock values (`Date.now()`, `new Date().toISOString()`) are passed in
explicitly as `String` parameters named `now`.  Persistence
(`saveSessionToDatabase`) is modelled as an append-only log of the session
snapshots handed to it, since the source's implementation is a logging stub.
JavaScript `throw` is modelled with `Except`; a thrown error performs no state
mutation, matching the source, where the throw happens before any assignment.
-/

/-- Session status, from `RecordingSession.status` in the types module:
`'recording' | 'stopped' | 'processing' | 'completed'`. -/
inductive Status : Type where
  | recording
  | stopped
  | processing
  | completed
deriving DecidableEq, Repr, BEq

/-- Structure `Interaction` from the types module.  An optional field is an `Option`. -/
structure Interaction : Type where
  id : String
  type : String
  element : String
  selector : String
  value : Option String
  timestamp : String
deriving DecidableEq, Repr

/-- Structure `ApiCall` from the types module.  `headers` is a key/value list; `body`
and `response` are kept as optional opaque strings. -/
structure ApiCall : Type where
  id : String
  method : String
  url : String
  headers : List (String × String)
  body : Option String
  response : Option String
  status : Nat
  timestamp : String
deriving DecidableEq, Repr

/-- Structure `RecordingSession` from the types module (the derived `testCases` field is
never touched by the controller and is omitted). -/
structure RecordingSession : Type where
  id : String
  userId : String
  url : String
  status : Status
  startTime : String
  endTime : Option String
  interactions : List Interaction
  apiCalls : List ApiCall
deriving DecidableEq, Repr

/-- Mutable state of the `RecordingService` singleton: `currentSession`,
`isRecording`, the recording window (modelled as an open/closed flag), plus
the log of snapshots passed to `saveSessionToDatabase`. -/
structure RState : Type where
  currentSession : Option RecordingSession
  isRecording : Bool
  windowOpen : Bool
  saved : List RecordingSession
deriving DecidableEq, Repr

/-- Freshly constructed `RecordingService`: no session, not recording. -/
def initialState : RState :=
  { currentSession := none, isRecording := false, windowOpen := false, saved := [] }

/-- Embeds `RecordingService.startRecording(url, userId)`.  Throws
`'Recording already in progress'` when `isRecording` is set; otherwise builds
a fresh session (status `recording`, empty `interactions`/`apiCalls`),
persists it, opens the recording window, sets `isRecording`, and returns the
session. -/
def startRecording (s : RState) (url userId now : String) :
    Except String (RecordingSession × RState) :=
  if s.isRecording then
    .error "Recording already in progress"
  else
    let sess : RecordingSession :=
      { id := "session_" ++ now
        userId := userId
        url := url
        status := .recording
        startTime := now
        endTime := none
        interactions := []
        apiCalls := [] }
    .ok (sess,
      { currentSession := some sess
        isRecording := true
        windowOpen := true
        saved := s.saved ++ [sess] })

/-- Embeds `RecordingService.stopRecording()`.  Returns `null` (here `none`) and
leaves the state untouched unless `isRecording` is set and a session is held;
otherwise stamps `endTime`, sets status `processing`, clears `isRecording`,
closes the window, persists, and returns the snapshot. -/
def stopRecording (s : RState) (now : String) :
    Option RecordingSession × RState :=
  match s.currentSession, s.isRecording with
  | some sess, true =>
      let sess' := { sess with status := .processing, endTime := some now }
      (some sess',
        { currentSession := some sess'
          isRecording := false
          windowOpen := false
          saved := s.saved ++ [sess'] })
  | _, _ => (none, s)

/-- Embeds `RecordingService.completeSession(sessionId)`.  Only when the held session
matches the id: sets status `completed`, persists, and releases the session.
`isRecording` and the window are not touched. -/
def completeSession (s : RState) (sessionId : String) : RState :=
  match s.currentSession with
  | some sess =>
      if sess.id = sessionId then
        let sess' := { sess with status := .completed }
        { s with currentSession := none, saved := s.saved ++ [sess'] }
      else s
  | none => s

/-- Embeds `RecordingService.pauseRecording()`: when a session is held, set its
status to `stopped` and clear `isRecording`. -/
def pauseRecording (s : RState) : RState :=
  match s.currentSession with
  | some sess =>
      { s with currentSession := some { sess with status := .stopped },
               isRecording := false }
  | none => s

/-- Embeds `RecordingService.resumeRecording()`: when a session is held, set its
status to `recording` and set `isRecording`. -/
def resumeRecording (s : RState) : RState :=
  match s.currentSession with
  | some sess =>
      { s with currentSession := some { sess with status := .recording },
               isRecording := true }
  | none => s

/-- Embeds `RecordingService.recordInteraction(interaction)`: append to the held
session's `interactions`; no-op without a session. -/
def recordInteraction (s : RState) (i : Interaction) : RState :=
  match s.currentSession with
  | some sess =>
      let sess' := { sess with interactions := sess.interactions ++ [i] }
      { s with currentSession := some sess' }
  | none => s

/-- Embeds `RecordingService.recordApiCall(apiCall)`: append to the held session's
`apiCalls`; no-op without a session. -/
def recordApiCall (s : RState) (a : ApiCall) : RState :=
  match s.currentSession with
  | some sess =>
      let sess' := { sess with apiCalls := sess.apiCalls ++ [a] }
      { s with currentSession := some sess' }
  | none => s

/-- Controller states reachable from a fresh service by the public lifecycle
and record operations.  A failed `startRecording` leaves the state unchanged,
so it contributes no constructor. -/
inductive Reachable : RState → Prop where
  | init : Reachable initialState
  | start {s : RState} {url uid now : String} {sess : RecordingSession}
      {s' : RState} :
      Reachable s → startRecording s url uid now = .ok (sess, s') →
      Reachable s'
  | pause {s : RState} : Reachable s → Reachable (pauseRecording s)
  | resume {s : RState} : Reachable s → Reachable (resumeRecording s)
  | stop {s : RState} {now : String} :
      Reachable s → Reachable (stopRecording s now).2
  | complete {s : RState} {sid : String} :
      Reachable s → Reachable (completeSession s sid)
  | recInt {s : RState} {i : Interaction} :
      Reachable s → Reachable (recordInteraction s i)
  | recApi {s : RState} {a : ApiCall} :
      Reachable s → Reachable (recordApiCall s a)

/-- A concrete first session, as allocated by
`startRecording initialState "https://a" "u" "t0"`. -/
def sess0 : RecordingSession :=
  { id := "session_t0"
    userId := "u"
    url := "https://a"
    status := .recording
    startTime := "t0"
    endTime := none
    interactions := []
    apiCalls := [] }

/-- The controller state right after that first `startRecording`. -/
def startedState : RState :=
  { currentSession := some sess0
    isRecording := true
    windowOpen := true
    saved := [sess0] }

theorem startedState_eq :
    startRecording initialState "https://a" "u" "t0" = .ok (sess0, startedState) := by
  rfl

theorem startedState_reachable : Reachable startedState :=
  Reachable.start Reachable.init startedState_eq

/-- The state after `startRecording` then `pauseRecording`: an active,
non-completed session with status `stopped` is held, and `isRecording` is
clear. -/
def pausedState : RState := pauseRecording startedState

theorem pausedState_reachable : Reachable pausedState :=
  Reachable.pause startedState_reachable

/-- A concrete second session, as allocated by
`startRecording pausedState "https://b" "u2" "t1"`. -/
def sess1 : RecordingSession :=
  { id := "session_t1"
    userId := "u2"
    url := "https://b"
    status := .recording
    startTime := "t1"
    endTime := none
    interactions := []
    apiCalls := [] }

/-- Claim C1 (counterexample).  In the reachable state `pausedState` an active,
non-completed session (status `stopped`, i.e. paused) is held, yet
`startRecording` does not fail: it succeeds and replaces the held session,
because the guard tests only the `isRecording` flag, which `pauseRecording`
clears. -/
theorem c1_counterexample :
    Reachable pausedState ∧
    pausedState.currentSession.map (fun sess => sess.status) = some Status.stopped ∧
    startRecording pausedState "https://b" "u2" "t1" =
      .ok (sess1,
        { currentSession := some sess1
          isRecording := true
          windowOpen := true
          saved := [sess0, sess1] }) :=
  ⟨pausedState_reachable, rfl, rfl⟩

/-- Claim C1 (amended).  `startRecording` fails with
`'Recording already in progress'` exactly when the `isRecording` flag is set
— not whenever an active, non-completed session exists.  When the flag is
clear it returns a fresh session with status `recording`, empty
`interactions` and `apiCalls`, and the given url and userId, and holds it as
the current session. -/
theorem c1_start_guard (s : RState) (url uid now : String) :
    (s.isRecording = true →
      startRecording s url uid now = .error "Recording already in progress") ∧
    (s.isRecording = false →
      ∃ sess st, startRecording s url uid now = .ok (sess, st) ∧
        sess.status = .recording ∧ sess.interactions = [] ∧
        sess.apiCalls = [] ∧ sess.url = url ∧ sess.userId = uid ∧
        sess.endTime = none ∧ st.currentSession = some sess ∧
        st.isRecording = true) := by
  constructor
  · intro h
    simp [startRecording, h]
  · intro h
    unfold startRecording
    rw [if_neg (by simp [h])]
    exact ⟨_, _, rfl, rfl, rfl, rfl, rfl, rfl, rfl, rfl, rfl⟩

/-- Witness for `c1_start_guard` at concrete states: with the flag set the
call fails; on a fresh controller it succeeds. -/
theorem c1_start_guard_witness :
    startRecording startedState "https://b" "u2" "t1" =
      .error "Recording already in progress" ∧
    (∃ sess st, startRecording initialState "https://a" "u" "t0" = .ok (sess, st) ∧
      sess.status = .recording ∧ sess.interactions = [] ∧
      sess.apiCalls = [] ∧ sess.url = "https://a" ∧ sess.userId = "u" ∧
      sess.endTime = none ∧ st.currentSession = some sess ∧
      st.isRecording = true) :=
  ⟨(c1_start_guard startedState "https://b" "u2" "t1").1 rfl,
   (c1_start_guard initialState "https://a" "u" "t0").2 rfl⟩

/-- Claim C2 (counterexample).  In the reachable state `pausedState` the prior
status is `stopped` (paused), yet `stopRecording` is a no-op returning `none`
— it does not set `processing`, stamp `endTime`, or return the snapshot —
because its guard tests the `isRecording` flag, which pause clears. -/
theorem c2_counterexample :
    Reachable pausedState ∧
    pausedState.currentSession.map (fun sess => sess.status) = some Status.stopped ∧
    stopRecording pausedState "t9" = (none, pausedState) :=
  ⟨pausedState_reachable, rfl, rfl⟩

/-- Claim C2 (amended).  `stopRecording` is a no-op returning `none` unless the
`isRecording` flag is set and a session is held (so also after a pause); when
it fires it stamps `endTime`, sets status `processing`, closes the capture
window, persists, and returns the snapshot (interactions and apiCalls
intact); and for every state, a second `stopRecording` in succession returns
`none` (it never throws). -/
theorem c2_stop_guard (s : RState) (now now2 : String) :
    (s.isRecording = false ∨ s.currentSession = none →
      stopRecording s now = (none, s)) ∧
    (∀ sess, s.currentSession = some sess → s.isRecording = true →
      ∃ sess', stopRecording s now =
          (some sess',
            { currentSession := some sess'
              isRecording := false
              windowOpen := false
              saved := s.saved ++ [sess'] }) ∧
        sess'.status = .processing ∧ sess'.endTime = some now ∧
        sess'.interactions = sess.interactions ∧
        sess'.apiCalls = sess.apiCalls ∧ sess'.id = sess.id) ∧
    (stopRecording (stopRecording s now).2 now2).1 = none := by
  refine ⟨?_, ?_, ?_⟩
  · intro h
    unfold stopRecording
    rcases h with h | h
    · rcases hc : s.currentSession with _ | sess <;> simp [h]
    · simp [h]
  · intro sess hc hr
    refine ⟨{ sess with status := .processing, endTime := some now },
      ?_, rfl, rfl, rfl, rfl, rfl⟩
    unfold stopRecording
    rw [hc, hr]
  · rcases hc : s.currentSession with _ | sess <;>
      rcases hr : s.isRecording with _ | _ <;>
        simp [stopRecording, hc, hr]

/-- Witness for `c2_stop_guard`: a paused state is left untouched, and a
double stop from a recording state returns `none` the second time. -/
theorem c2_stop_guard_witness :
    stopRecording pausedState "t9" = (none, pausedState) ∧
    (stopRecording (stopRecording startedState "t1").2 "t2").1 = none :=
  ⟨(c2_stop_guard pausedState "t9" "t9").1 (Or.inl rfl),
   (c2_stop_guard startedState "t1" "t2").2.2⟩


/-! Characterization lemmas, one per branch of each lifecycle operation. -/

theorem pauseRecording_no_session {s : RState}
    (h : s.currentSession = none) : pauseRecording s = s := by
  unfold pauseRecording
  rw [h]

theorem pauseRecording_session {s : RState} {sess : RecordingSession}
    (h : s.currentSession = some sess) :
    pauseRecording s =
      { s with currentSession := some { sess with status := .stopped },
               isRecording := false } := by
  unfold pauseRecording
  rw [h]

theorem resumeRecording_no_session {s : RState}
    (h : s.currentSession = none) : resumeRecording s = s := by
  unfold resumeRecording
  rw [h]

theorem resumeRecording_session {s : RState} {sess : RecordingSession}
    (h : s.currentSession = some sess) :
    resumeRecording s =
      { s with currentSession := some { sess with status := .recording },
               isRecording := true } := by
  unfold resumeRecording
  rw [h]

theorem recordInteraction_no_session {s : RState} {i : Interaction}
    (h : s.currentSession = none) : recordInteraction s i = s := by
  unfold recordInteraction
  rw [h]

theorem recordInteraction_session {s : RState} {sess : RecordingSession}
    {i : Interaction} (h : s.currentSession = some sess) :
    recordInteraction s i =
      { s with currentSession := some { sess with interactions := sess.interactions ++ [i] } } := by
  unfold recordInteraction
  rw [h]

theorem recordApiCall_no_session {s : RState} {a : ApiCall}
    (h : s.currentSession = none) : recordApiCall s a = s := by
  unfold recordApiCall
  rw [h]

theorem recordApiCall_session {s : RState} {sess : RecordingSession}
    {a : ApiCall} (h : s.currentSession = some sess) :
    recordApiCall s a =
      { s with currentSession := some { sess with apiCalls := sess.apiCalls ++ [a] } } := by
  unfold recordApiCall
  rw [h]

theorem stopRecording_noop {s : RState} (now : String)
    (h : s.currentSession = none ∨ s.isRecording = false) :
    stopRecording s now = (none, s) := by
  unfold stopRecording
  rcases hc : s.currentSession with _ | sess
  · cases s.isRecording <;> rfl
  · rcases h with h | h
    · rw [hc] at h
      exact absurd h (by simp)
    · rw [h]

theorem stopRecording_fires {s : RState} {sess : RecordingSession}
    (now : String) (hc : s.currentSession = some sess)
    (hr : s.isRecording = true) :
    stopRecording s now =
      (some { sess with status := .processing, endTime := some now },
        { currentSession :=
            some { sess with status := .processing, endTime := some now },
          isRecording := false,
          windowOpen := false,
          saved :=
            s.saved ++ [{ sess with status := .processing, endTime := some now }] }) := by
  unfold stopRecording
  rw [hc, hr]

theorem completeSession_no_session {s : RState} (sid : String)
    (h : s.currentSession = none) : completeSession s sid = s := by
  unfold completeSession
  rw [h]

theorem completeSession_mismatch {s : RState} {sess : RecordingSession}
    (sid : String) (hc : s.currentSession = some sess)
    (hid : sess.id ≠ sid) : completeSession s sid = s := by
  unfold completeSession
  rw [hc]
  exact if_neg hid

theorem completeSession_matches {s : RState} {sess : RecordingSession}
    (sid : String) (hc : s.currentSession = some sess)
    (hid : sess.id = sid) :
    completeSession s sid =
      { s with currentSession := none,
               saved := s.saved ++ [{ sess with status := .completed }] } := by
  unfold completeSession
  rw [hc]
  exact if_pos hid

/-- Claim C10 (confirmed).  `completeSession` with a non-matching id — or with
no held session — leaves the controller state exactly unchanged: current
session, `isRecording`, window flag, and persistence log included. -/
theorem c10_complete_frame (s : RState) (sid : String)
    (h : ∀ sess, s.currentSession = some sess → sess.id ≠ sid) :
    completeSession s sid = s := by
  cases hc : s.currentSession with
  | none => exact completeSession_no_session sid hc
  | some sess => exact completeSession_mismatch sid hc (h sess hc)

/-- Witness for `c10_complete_frame`: completing a mismatching id on a
recording state changes nothing. -/
theorem c10_complete_frame_witness :
    completeSession startedState "other_id" = startedState :=
  c10_complete_frame startedState "other_id"
    (by
      intro sess hs
      have h2 : sess0 = sess := by
        simpa [startedState] using hs
      rw [← h2]
      decide)

/-- Predicate: `endTime` is set iff status is `processing` or `completed`, as a Boolean
predicate on one session. -/
def endTimeInvB (sess : RecordingSession) : Bool :=
  sess.endTime.isSome ==
    (sess.status == Status.processing || sess.status == Status.completed)

/-- The `endTime`/status invariant for a controller state: it holds for the
held session (if any) and for every persisted snapshot. -/
def stateEndTimeInv (s : RState) : Bool :=
  (match s.currentSession with
   | some sess => endTimeInvB sess
   | none => true) && s.saved.all endTimeInvB

/-- Controller states reachable when the lifecycle is used as intended:
`pauseRecording`/`resumeRecording` only while the held session's `endTime` is
unset (i.e. before a stop), and `completeSession` only while the held
session's status is `processing` (i.e. after a successful stop).  `start`,
`stop` and the record operations are unrestricted. -/
inductive GuardedReachable : RState → Prop where
  | init : GuardedReachable initialState
  | start {s : RState} {url uid now : String} {sess : RecordingSession}
      {s' : RState} :
      GuardedReachable s → startRecording s url uid now = .ok (sess, s') →
      GuardedReachable s'
  | pause {s : RState} : GuardedReachable s →
      (∀ sess, s.currentSession = some sess → sess.endTime = none) →
      GuardedReachable (pauseRecording s)
  | resume {s : RState} : GuardedReachable s →
      (∀ sess, s.currentSession = some sess → sess.endTime = none) →
      GuardedReachable (resumeRecording s)
  | stop {s : RState} {now : String} :
      GuardedReachable s → GuardedReachable (stopRecording s now).2
  | complete {s : RState} {sid : String} : GuardedReachable s →
      (∀ sess, s.currentSession = some sess → sess.status = Status.processing) →
      GuardedReachable (completeSession s sid)
  | recInt {s : RState} {i : Interaction} :
      GuardedReachable s → GuardedReachable (recordInteraction s i)
  | recApi {s : RState} {a : ApiCall} :
      GuardedReachable s → GuardedReachable (recordApiCall s a)

/-- The state after `start` then `stop`: held session `processing` with
`endTime` stamped. -/
def stoppedState : RState := (stopRecording startedState "t1").2

/-- The state after `start`, `stop`, then `pause`: the pause downgrades the
status to `stopped` while `endTime` stays stamped. -/
def stoppedPausedState : RState := pauseRecording stoppedState

/-- Claim C4 (counterexample).  The session-lifecycle operations can reach a
state violating the claimed invariant: after `startRecording`,
`stopRecording`, then `pauseRecording`, the held session has status `stopped`
(not `processing`/`completed`) yet `endTime` is set, because
`pauseRecording` rewrites the status of any held session, stopped or not. -/
theorem c4_counterexample :
    Reachable stoppedPausedState ∧
    stoppedPausedState.currentSession.map (fun sess => sess.status) =
      some Status.stopped ∧
    stoppedPausedState.currentSession.map (fun sess => sess.endTime) =
      some (some "t1") ∧
    stateEndTimeInv stoppedPausedState = false :=
  ⟨Reachable.pause (Reachable.stop startedState_reachable), rfl, rfl, rfl⟩

/-- Claim C4 (amended).  The invariant `endTime` set iff status ∈ {processing,
completed} holds for the held session and all persisted snapshots in every
state reachable from a fresh controller when `pauseRecording` and
`resumeRecording` are only invoked while `endTime` is unset and
`completeSession` only on a `processing` session; unrestricted sequences can
violate it. -/
theorem c4_endTime_invariant {s : RState} (h : GuardedReachable s) :
    stateEndTimeInv s = true := by
  induction h with
  | init => rfl
  | start hs heq ih =>
    rename_i s url uid now sess s'
    unfold startRecording at heq
    by_cases hr : s.isRecording = true
    · simp [hr] at heq
    · simp only [Bool.not_eq_true] at hr
      rw [if_neg (by simp [hr])] at heq
      injection heq with heq2
      injection heq2 with hsess hstate
      subst hstate
      simp only [stateEndTimeInv, Bool.and_eq_true, List.all_append] at ih ⊢
      exact ⟨rfl, ih.2, rfl⟩
  | pause hs hguard ih =>
    rename_i s
    cases hc : s.currentSession with
    | none => rw [pauseRecording_no_session hc]; exact ih
    | some sess =>
      rw [pauseRecording_session hc]
      simp only [stateEndTimeInv, hc, Bool.and_eq_true] at ih ⊢
      refine ⟨?_, ih.2⟩
      simp [endTimeInvB, hguard sess hc]
      exact ⟨rfl, rfl⟩
  | resume hs hguard ih =>
    rename_i s
    cases hc : s.currentSession with
    | none => rw [resumeRecording_no_session hc]; exact ih
    | some sess =>
      rw [resumeRecording_session hc]
      simp only [stateEndTimeInv, hc, Bool.and_eq_true] at ih ⊢
      refine ⟨?_, ih.2⟩
      simp [endTimeInvB, hguard sess hc]
      exact ⟨rfl, rfl⟩
  | stop hs ih =>
    rename_i s now
    cases hc : s.currentSession with
    | none => rw [stopRecording_noop now (Or.inl hc)]; exact ih
    | some sess =>
      cases hr : s.isRecording with
      | false => rw [stopRecording_noop now (Or.inr hr)]; exact ih
      | true =>
        rw [stopRecording_fires now hc hr]
        simp only [stateEndTimeInv, hc, Bool.and_eq_true, List.all_append] at ih ⊢
        refine ⟨rfl, ih.2, ?_⟩
        simp [endTimeInvB]
        exact Or.inl rfl
  | complete hs hguard ih =>
    rename_i s sid
    cases hc : s.currentSession with
    | none => rw [completeSession_no_session sid hc]; exact ih
    | some sess =>
      by_cases hid : sess.id = sid
      · rw [completeSession_matches sid hc hid]
        simp only [stateEndTimeInv, hc, Bool.and_eq_true, List.all_append] at ih ⊢
        refine ⟨trivial, ih.2, ?_⟩
        have hp := hguard sess hc
        have hsome : sess.endTime.isSome = true := by
          have h1 := ih.1
          simp [endTimeInvB, hp] at h1
          exact h1
        simp [endTimeInvB, hsome]
        exact Or.inr rfl
      · rw [completeSession_mismatch sid hc hid]; exact ih
  | recInt hs ih =>
    rename_i s i
    cases hc : s.currentSession with
    | none => rw [recordInteraction_no_session hc]; exact ih
    | some sess =>
      rw [recordInteraction_session hc]
      simp only [stateEndTimeInv, hc, Bool.and_eq_true] at ih ⊢
      exact ⟨by simpa [endTimeInvB] using ih.1, ih.2⟩
  | recApi hs ih =>
    rename_i s a
    cases hc : s.currentSession with
    | none => rw [recordApiCall_no_session hc]; exact ih
    | some sess =>
      rw [recordApiCall_session hc]
      simp only [stateEndTimeInv, hc, Bool.and_eq_true] at ih ⊢
      exact ⟨by simpa [endTimeInvB] using ih.1, ih.2⟩

/-- Witness for `c4_endTime_invariant` on the guarded run `start; stop`. -/
theorem c4_endTime_invariant_witness :
    stateEndTimeInv stoppedState = true :=
  c4_endTime_invariant
    (GuardedReachable.stop (GuardedReachable.start GuardedReachable.init startedState_eq))

/-- One incoming record message from the capture agent: either an
`INTERACTION_RECORDED` or an `API_CALL_RECORDED` payload. -/
inductive RecordOp : Type where
  | int (i : Interaction)
  | api (a : ApiCall)

/-- Dispatch one record message to the controller. -/
def applyRecordOp (s : RState) : RecordOp → RState
  | .int i => recordInteraction s i
  | .api a => recordApiCall s a

/-- Apply a sequence of record messages in arrival order. -/
def applyRecordOps (s : RState) : List RecordOp → RState
  | [] => s
  | op :: ops => applyRecordOps (applyRecordOp s op) ops

/-- The interactions carried by a message sequence, in arrival order. -/
def opsInteractions (ops : List RecordOp) : List Interaction :=
  ops.filterMap fun op =>
    match op with
    | .int i => some i
    | .api _ => none

/-- The api calls carried by a message sequence, in arrival order. -/
def opsApiCalls (ops : List RecordOp) : List ApiCall :=
  ops.filterMap fun op =>
    match op with
    | .api a => some a
    | .int _ => none

theorem applyRecordOps_spec (ops : List RecordOp) (s : RState)
    (sess : RecordingSession) (h : s.currentSession = some sess) :
    ∃ sess', (applyRecordOps s ops).currentSession = some sess' ∧
      sess'.interactions = sess.interactions ++ opsInteractions ops ∧
      sess'.apiCalls = sess.apiCalls ++ opsApiCalls ops ∧
      sess'.id = sess.id ∧ sess'.status = sess.status ∧
      sess'.endTime = sess.endTime := by
  induction ops generalizing s sess with
  | nil =>
    exact ⟨sess, h, by simp [opsInteractions], by simp [opsApiCalls],
      rfl, rfl, rfl⟩
  | cons op ops ih =>
    cases op with
    | int i =>
      have h2 :
          (recordInteraction s i).currentSession =
            some { sess with interactions := sess.interactions ++ [i] } := by
        rw [recordInteraction_session h]
      obtain ⟨sess', h1, hInt, hApi, hId, hSt, hEnd⟩ := ih _ _ h2
      refine ⟨sess', h1, ?_, ?_, hId, hSt, hEnd⟩
      · rw [hInt]
        simp [opsInteractions]
      · rw [hApi]
        simp [opsApiCalls]
    | api a =>
      have h2 :
          (recordApiCall s a).currentSession =
            some { sess with apiCalls := sess.apiCalls ++ [a] } := by
        rw [recordApiCall_session h]
      obtain ⟨sess', h1, hInt, hApi, hId, hSt, hEnd⟩ := ih _ _ h2
      refine ⟨sess', h1, ?_, ?_, hId, hSt, hEnd⟩
      · rw [hInt]
        simp [opsInteractions]
      · rw [hApi]
        simp [opsApiCalls]

/-- Claim C5 (confirmed).  Record ingestion is append-only in arrival order:
applying any sequence of `recordInteraction`/`recordApiCall` messages appends
exactly the carried interactions and api calls, in order, at the end of the
held session's lists; and the lifecycle operations `pauseRecording`,
`resumeRecording`, `stopRecording` and `completeSession` never remove,
reorder or mutate previously inserted records. -/
theorem c5_append_only (s : RState) (sess : RecordingSession)
    (ops : List RecordOp) (now sid : String)
    (h : s.currentSession = some sess) :
    (∃ sess', (applyRecordOps s ops).currentSession = some sess' ∧
      sess'.interactions = sess.interactions ++ opsInteractions ops ∧
      sess'.apiCalls = sess.apiCalls ++ opsApiCalls ops) ∧
    (pauseRecording s).currentSession.map
        (fun t => (t.interactions, t.apiCalls)) =
      some (sess.interactions, sess.apiCalls) ∧
    (resumeRecording s).currentSession.map
        (fun t => (t.interactions, t.apiCalls)) =
      some (sess.interactions, sess.apiCalls) ∧
    ((stopRecording s now).2).currentSession.map
        (fun t => (t.interactions, t.apiCalls)) =
      some (sess.interactions, sess.apiCalls) ∧
    (completeSession s sid = s ∨
      ((completeSession s sid).currentSession = none ∧
        ∃ sessC, (completeSession s sid).saved = s.saved ++ [sessC] ∧
          sessC.interactions = sess.interactions ∧
          sessC.apiCalls = sess.apiCalls)) := by
  refine ⟨?_, ?_, ?_, ?_, ?_⟩
  · obtain ⟨sess', h1, h2, h3, _, _, _⟩ := applyRecordOps_spec ops s sess h
    exact ⟨sess', h1, h2, h3⟩
  · rw [pauseRecording_session h]
    rfl
  · rw [resumeRecording_session h]
    rfl
  · cases hr : s.isRecording with
    | false => rw [stopRecording_noop now (Or.inr hr), h]; rfl
    | true => rw [stopRecording_fires now h hr]; rfl
  · by_cases hid : sess.id = sid
    · right
      rw [completeSession_matches sid h hid]
      exact ⟨rfl, { sess with status := .completed }, rfl, rfl, rfl⟩
    · left
      exact completeSession_mismatch sid h hid

/-- A concrete captured click interaction. -/
def int0 : Interaction :=
  { id := "interaction_1"
    type := "click"
    element := "button"
    selector := "#buy"
    value := some "Buy"
    timestamp := "t0" }

/-- A concrete captured api call. -/
def api0 : ApiCall :=
  { id := "api_1"
    method := "GET"
    url := "https://a/api"
    headers := []
    body := none
    response := none
    status := 200
    timestamp := "t0" }

/-- Witness for `c5_append_only` on a started session receiving a click then
an api call. -/
theorem c5_append_only_witness :
    ∃ sess',
      (applyRecordOps startedState [RecordOp.int int0, RecordOp.api api0]).currentSession =
        some sess' ∧
      sess'.interactions =
        sess0.interactions ++ opsInteractions [RecordOp.int int0, RecordOp.api api0] ∧
      sess'.apiCalls =
        sess0.apiCalls ++ opsApiCalls [RecordOp.int int0, RecordOp.api api0] :=
  (c5_append_only startedState sess0 [RecordOp.int int0, RecordOp.api api0]
    "t1" "x" rfl).1

/-! Embedding of `TestCaseGenerator.parseAIResponse` and its helpers.
JS string primitives (`trim`, `split`, `toLowerCase`, `includes`) are given
executable list-based definitions. -/

/-- JS `s.trim()`: strip whitespace from both ends. -/
def jsTrim (s : String) : String :=
  String.mk
    (((s.data.dropWhile Char.isWhitespace).reverse.dropWhile
      Char.isWhitespace).reverse)

/-- Split on a separator character, keeping empty chunks (JS
`s.split(sep)` for a one-character separator). -/
def splitOnCharAux (sep : Char) : List Char → List Char → List String
  | [], acc => [String.mk acc.reverse]
  | c :: rest, acc =>
    if c = sep then String.mk acc.reverse :: splitOnCharAux sep rest []
    else splitOnCharAux sep rest (c :: acc)

/-- JS `s.split('\n')`. -/
def splitLines (s : String) : List String :=
  splitOnCharAux '\n' s.data []

/-- JS `s.toLowerCase()` (ASCII). -/
def jsToLower (s : String) : String :=
  String.mk (s.data.map Char.toLower)

/-- Structure `TestStep` from the types module. -/
structure TestStep : Type where
  id : String
  action : String
  element : String
  value : Option String
  expected : String
deriving DecidableEq, Repr

/-- Structure `TestCase` from the types module. -/
structure TestCase : Type where
  id : String
  sessionId : String
  title : String
  description : String
  steps : List TestStep
  format : String
  content : String
  createdAt : String
deriving DecidableEq, Repr

/-- Consume the literal `pat` from the front of `cs`, returning the rest. -/
def dropLit : List Char → List Char → Option (List Char)
  | [], cs => some cs
  | _ :: _, [] => none
  | p :: ps, c :: cs => if p = c then dropLit ps cs else none

/-- Case-insensitive variant of `dropLit` (`pat` must be lowercase),
modelling a `/.../i` regex literal. -/
def dropLitCI : List Char → List Char → Option (List Char)
  | [], cs => some cs
  | _ :: _, [] => none
  | p :: ps, c :: cs => if p = c.toLower then dropLitCI ps cs else none

/-- Does `pat` occur at the front of `cs`? -/
def startsWithChars (pat cs : List Char) : Bool :=
  (dropLit pat cs).isSome

/-- Does `needle` occur anywhere in `cs` (JS `String.includes`)? -/
def hasSubstrChars (needle : List Char) : List Char → Bool
  | [] => needle.isEmpty
  | c :: cs => startsWithChars needle (c :: cs) || hasSubstrChars needle cs

/-- JS `hay.includes(needle)`. -/
def containsSub (needle hay : String) : Bool :=
  hasSubstrChars needle.data hay.data

/-- Match one of the section markers `Test Case \d+:`, `Scenario:`,
`Feature:` at the current position, returning the rest of the input after the
marker.  The three alternatives start with distinct characters, so trying
them in sequence matches the regex alternation. -/
def matchMarkerAt (cs : List Char) : Option (List Char) :=
  match dropLit "Scenario:".data cs with
  | some rest => some rest
  | none =>
    match dropLit "Feature:".data cs with
    | some rest => some rest
    | none =>
      match dropLit "Test Case ".data cs with
      | some rest =>
        let digits := rest.takeWhile Char.isDigit
        match rest.dropWhile Char.isDigit with
        | ':' :: tail => if digits.isEmpty then none else some tail
        | _ => none
      | none => none

/-- Splitting scan of JS `response.split(/Test Case \d+:|Scenario:|Feature:/)`:
walk the input left to right, closing the current chunk at each marker
occurrence.  `fuel` bounds the recursion; every step consumes at least one
character, so `cs.length + 1` is always enough. -/
def splitMarkersAux : Nat → List Char → List Char → List String
  | 0, _, acc => [String.mk acc.reverse]
  | fuel + 1, cs, acc =>
    match matchMarkerAt cs with
    | some rest => String.mk acc.reverse :: splitMarkersAux fuel rest []
    | none =>
      match cs with
      | [] => [String.mk acc.reverse]
      | c :: rest => splitMarkersAux fuel rest (c :: acc)

/-- JS `response.split(/Test Case \d+:|Scenario:|Feature:/)`. -/
def splitMarkers (s : String) : List String :=
  splitMarkersAux (s.data.length + 1) s.data []

/-- JS falsy-or `v || d` for an optional string: `undefined` and `""` both
fall back to the default. -/
def jsOrDefault (v : Option String) (d : String) : String :=
  match v with
  | some s => if s = "" then d else s
  | none => d

/-- Replace the first case-insensitive occurrence of `description` plus an
optional following `:` by nothing — JS `line.replace(/description:?/i, '')`. -/
def removeDescMarker : List Char → List Char
  | [] => []
  | c :: rest =>
    match dropLitCI "description".data (c :: rest) with
    | some r =>
      match r with
      | ':' :: r2 => r2
      | _ => r
    | none => c :: removeDescMarker rest

/-- Embeds `TestCaseGenerator.extractDescription`: first line mentioning
`description` or `purpose` (case-insensitively), with the marker stripped;
default text otherwise. -/
def extractDescription (content : String) : String :=
  match (splitLines content).find? (fun line =>
      containsSub "description" (jsToLower line) ||
      containsSub "purpose" (jsToLower line)) with
  | none => "AI-generated test case"
  | some line =>
    let r := jsTrim (String.mk (removeDescMarker line.data))
    if r = "" then "AI-generated test case" else r

/-- Regex `^\d+\.`: one or more digits at the start, then a dot. -/
def startsWithDigitsDot (cs : List Char) : Bool :=
  match cs.dropWhile Char.isDigit with
  | '.' :: _ => !(cs.takeWhile Char.isDigit).isEmpty
  | _ => false

/-- The test of `trimmed.match(/^\d+\.|\*|-|Given|When|Then|And/)`: only the
first alternative is anchored; the rest match anywhere in the line. -/
def stepLineMatch (trimmed : String) : Bool :=
  startsWithDigitsDot trimmed.data || trimmed.data.contains '*' ||
  trimmed.data.contains '-' || containsSub "Given" trimmed ||
  containsSub "When" trimmed || containsSub "Then" trimmed ||
  containsSub "And" trimmed

/-- Embeds `TestCaseGenerator.extractSteps`: one `TestStep` per matching line, with
the line index in the id and the trimmed line as the action. -/
def extractSteps (content : String) : List TestStep :=
  (splitLines content).enum.filterMap fun p =>
    let trimmed := jsTrim p.2
    if stepLineMatch trimmed then
      some { id := "step_" ++ toString p.1
             action := trimmed
             element := ""
             value := none
             expected := "" }
    else none

/-- The fallback testcase built by `parseAIResponse` when no section was
parsed (and by its catch handler). -/
def fallbackTestCase (response sessionId format now : String) : TestCase :=
  { id := "test_" ++ sessionId ++ "_" ++ now
    sessionId := sessionId
    title := "Generated Test Case"
    description := "AI-generated test case based on recorded interactions"
    steps := []
    format := format
    content := response
    createdAt := now }

/-- The per-section loop of `parseAIResponse`: one `TestCase` per non-empty
section, indexed in split order. -/
def parsedSections (sessionId format now : String)
    (sections : List String) : List TestCase :=
  sections.enum.filterMap fun p =>
    if jsTrim p.2 == "" then none
    else
      some { id := "test_" ++ sessionId ++ "_" ++ now ++ "_" ++ toString p.1
             sessionId := sessionId
             title := jsOrDefault ((splitLines (jsTrim p.2)).head?.map
               (fun l => jsTrim l)) ("Test Case " ++ toString (p.1 + 1))
             description := extractDescription p.2
             steps := extractSteps p.2
             format := format
             content := jsTrim p.2
             createdAt := now }

/-- Embeds `TestCaseGenerator.parseAIResponse(response, sessionId, format)`.
`now` stands for `Date.now()` in the generated ids and for
`new Date().toISOString()` in `createdAt`. -/
def parseAIResponse (response sessionId format now : String) : List TestCase :=
  let sections := (splitMarkers response).filter (fun s => !(jsTrim s == ""))
  let testCases := parsedSections sessionId format now sections
  if testCases.isEmpty then [fallbackTestCase response sessionId format now]
  else testCases

/-- Claim C3 (confirmed).  `parseAIResponse` always returns at least one
`TestCase`; and whenever the marker split yields no non-empty section it
returns exactly the single fallback `TestCase` titled
`Generated Test Case`, with the raw response verbatim as content and an
empty step list. -/
theorem c3_parse_fallback (response sessionId format now : String) :
    1 ≤ (parseAIResponse response sessionId format now).length ∧
    ((splitMarkers response).filter (fun s => !(jsTrim s == "")) = [] →
      parseAIResponse response sessionId format now =
        [fallbackTestCase response sessionId format now]) := by
  constructor
  · unfold parseAIResponse
    dsimp only
    split
    · simp
    · rename_i h2
      have h3 := List.isEmpty_eq_false.mp (Bool.of_not_eq_true h2)
      simpa [Nat.succ_le, List.length_pos] using h3
  · intro h
    unfold parseAIResponse
    rw [h]
    rfl

/-- Witness for `c3_parse_fallback` on the response `"Scenario:  "`, whose
split yields only empty sections. -/
theorem c3_parse_fallback_witness :
    (splitMarkers "Scenario:  ").filter (fun s => !(jsTrim s == "")) = [] ∧
    parseAIResponse "Scenario:  " "s1" "gherkin" "t5" =
      [fallbackTestCase "Scenario:  " "s1" "gherkin" "t5"] :=
  ⟨by decide,
   (c3_parse_fallback "Scenario:  " "s1" "gherkin" "t5").2 (by decide)⟩

/-! Embedding of `FileDownloadService` (the Format Renderer). -/

/-- Regex `\w`: ASCII word character. -/
def isWordChar (c : Char) : Bool := c.isAlphanum || c = '_'

/-- The per-character effect of
`str.replace(/(?:^\w|[A-Z]|\b\w)/g, word => word.toUpperCase())`: every
alternative matches exactly one character, so a character is uppercased when
it is already uppercase, or is a word character at the string start or after
a non-word character. -/
def pascalChars : Option Char → List Char → List Char
  | _, [] => []
  | prev, c :: rest =>
    let boundary :=
      match prev with
      | none => true
      | some p => !(isWordChar p)
    let c2 := if c.isUpper || (isWordChar c && boundary) then c.toUpper else c
    c2 :: pascalChars (some c) rest

/-- Embeds `FileDownloadService.toPascalCase`: uppercase word starts and capitals,
then delete all whitespace (`.replace(/\s+/g, '')`). -/
def toPascalCase (s : String) : String :=
  String.mk ((pascalChars none s.data).filter (fun c => !c.isWhitespace))

/-- JS `.replace(/\s+/g, '_')`: each maximal whitespace run becomes one
underscore. -/
def squashWsUnderscore (prevWs : Bool) : List Char → List Char
  | [] => []
  | c :: rest =>
    if c.isWhitespace then
      if prevWs then squashWsUnderscore true rest
      else '_' :: squashWsUnderscore true rest
    else c :: squashWsUnderscore false rest

/-- JS `s.replace(/\s+/g, '_')` on a string. -/
def replaceWsUnderscore (s : String) : String :=
  String.mk (squashWsUnderscore false s.data)

/-- Character class `[a-z0-9_]` (the complement of what
`.replace(/[^a-z0-9_]/g, '')` deletes). -/
def keepSnakeChar (c : Char) : Bool :=
  ('a' ≤ c && c ≤ 'z') || ('0' ≤ c && c ≤ '9') || c = '_'

/-- Embeds `FileDownloadService.toSnakeCase`:
`str.toLowerCase().replace(/\s+/g, '_').replace(/[^a-z0-9_]/g, '')`. -/
def toSnakeCase (s : String) : String :=
  String.mk ((squashWsUnderscore false (jsToLower s).data).filter keepSnakeChar)

/-- Scan for the first match of `/https?:\/\/[^\s]+/`: the earliest position
starting with `http://` or `https://`, extended to the next whitespace. -/
def findUrl : List Char → Option (List Char)
  | [] => none
  | c :: rest =>
    if startsWithChars "https://".data (c :: rest) ||
        startsWithChars "http://".data (c :: rest) then
      some ((c :: rest).takeWhile (fun ch => !ch.isWhitespace))
    else findUrl rest

/-- Embeds `FileDownloadService.extractUrlFromContent`: first URL-shaped token of
the content, defaulting to `https://example.com`. -/
def extractUrlFromContent (content : String) : String :=
  match findUrl content.data with
  | some cs => String.mk cs
  | none => "https://example.com"

/-- The classification lambda inside
`FileDownloadService.generateGherkinSteps`, mapping one `TestStep` to its
Gherkin clause by keyword match on the lowercased action text. -/
def gherkinStepClause (step : TestStep) : String :=
  if containsSub "click" (jsToLower step.action) then
    "    When I click on \"" ++ step.element ++ "\""
  else if containsSub "input" (jsToLower step.action) ||
      containsSub "type" (jsToLower step.action) then
    "    When I enter \"" ++ jsOrDefault step.value "test data" ++
      "\" in \"" ++ step.element ++ "\""
  else if containsSub "navigate" (jsToLower step.action) then
    "    Given I navigate to \"" ++ jsOrDefault step.value "the page" ++ "\""
  else
    "    And I " ++ jsToLower step.action

/-- Embeds `FileDownloadService.generateGherkinSteps`. -/
def generateGherkinSteps (tc : TestCase) : String :=
  let steps := String.intercalate "\n" (tc.steps.map gherkinStepClause)
  "Given I am on the application page\n    " ++ steps ++
    "\n    Then I should see the expected results\n    And the page should be displayed correctly"

/-- Embeds `FileDownloadService.generatePytestSteps`. -/
def generatePytestSteps (tc : TestCase) : String :=
  let steps := String.intercalate "\n" (tc.steps.map (fun step =>
    "            # " ++ step.action ++
      "\n            time.sleep(0.5)  # Small delay for stability"))
  "# Navigate to the application\n            driver.get(\"" ++
    extractUrlFromContent tc.content ++
    "\")\n            \n            # Wait for page to load\n            self.wait_for_element(driver, By.TAG_NAME, \"body\")\n            \n            " ++
    steps ++
    "\n            \n            # Add assertions\n            assert driver.title is not None, \"Page title should not be None\"\n            print(\"Test completed successfully\")"

/-- Embeds `FileDownloadService.generateJavaStepDefinitions`. -/
def generateJavaStepDefinitions (tc : TestCase) : String :=
  "\n    @Given(\"the browser is open\")\n    public void the_browser_is_open() \x7b\n        // Browser setup is handled in @Before\n        Assert.assertNotNull(\"Driver should be initialized\", driver);\n    \x7d\n    \n    @Given(\"I navigate to the application\")\n    public void i_navigate_to_the_application() \x7b\n        driver.get(\"" ++
    extractUrlFromContent tc.content ++
    "\");\n    \x7d\n    \n    @When(\"I click on \x7bstring\x7d\")\n    public void i_click_on(String element) \x7b\n        // Implementation for clicking elements\n        // Use page object methods here\n    \x7d\n    \n    @When(\"I enter \x7bstring\x7d in \x7bstring\x7d\")\n    public void i_enter_in(String text, String element) \x7b\n        // Implementation for entering text\n        // Use page object methods here\n    \x7d\n    \n    @Then(\"I should see the expected results\")\n    public void i_should_see_the_expected_results() \x7b\n        // Add assertions here\n        Assert.assertTrue(\"Expected results should be visible\", true);\n    \x7d\n"

/-- Embeds `FileDownloadService.generatePytestFile`.  The source stamps
`new Date().toISOString()` into the header; that clock value is the `now`
parameter here. -/
def generatePytestFile (now : String) (tc : TestCase) : String :=
  let className := toPascalCase tc.title
  let methodName := toSnakeCase tc.title
  "\"\"\"\n" ++ tc.title ++ "\n" ++ tc.description ++
    "\n\nGenerated on: " ++ now ++
    "\n\"\"\"\n\nimport pytest\nimport time\nfrom selenium import webdriver\nfrom selenium.webdriver.common.by import By\nfrom selenium.webdriver.support.ui import WebDriverWait\nfrom selenium.webdriver.support import expected_conditions as EC\nfrom selenium.webdriver.common.action_chains import ActionChains\nfrom selenium.webdriver.chrome.options import Options\n\n\nclass Test" ++
    className ++ ":\n    \"\"\"Test class for " ++ tc.title ++
    "\"\"\"\n    \n    @pytest.fixture(scope=\"function\")\n    def driver(self):\n        \"\"\"Setup and teardown for WebDriver\"\"\"\n        options = Options()\n        options.add_argument(\"--headless\")  # Remove for debugging\n        options.add_argument(\"--no-sandbox\")\n        options.add_argument(\"--disable-dev-shm-usage\")\n        \n        driver = webdriver.Chrome(options=options)\n        driver.implicitly_wait(10)\n        driver.maximize_window()\n        \n        yield driver\n        \n        driver.quit()\n    \n    def test_" ++
    methodName ++ "(self, driver):\n        \"\"\"\n        " ++
    tc.description ++ "\n        \"\"\"\n        try:\n            " ++
    generatePytestSteps tc ++
    "\n            \n        except Exception as e:\n            pytest.fail(f\"Test failed with error: \x7bstr(e)\x7d\")\n    \n    def wait_for_element(self, driver, by, value, timeout=10):\n        \"\"\"Helper method to wait for element\"\"\"\n        return WebDriverWait(driver, timeout).until(\n            EC.presence_of_element_located((by, value))\n        )\n    \n    def wait_and_click(self, driver, by, value, timeout=10):\n        \"\"\"Helper method to wait and click element\"\"\"\n        element = WebDriverWait(driver, timeout).until(\n            EC.element_to_be_clickable((by, value))\n        )\n        element.click()\n        return element\n    \n    def wait_and_send_keys(self, driver, by, value, text, timeout=10):\n        \"\"\"Helper method to wait and send keys to element\"\"\"\n        element = WebDriverWait(driver, timeout).until(\n            EC.presence_of_element_located((by, value))\n        )\n        element.clear()\n        element.send_keys(text)\n        return element\n\n\nif __name__ == \"__main__\":\n    pytest.main([__file__])\n"

/-- Embeds `FileDownloadService.generateSeleniumBDDFiles`. -/
def generateSeleniumBDDFiles (tc : TestCase) : String :=
  let featureName := toPascalCase tc.title
  "# Feature File: " ++ replaceWsUnderscore (jsToLower tc.title) ++
    ".feature\n\nFeature: " ++ tc.title ++
    "\n  As a user\n  I want to " ++ tc.description ++
    "\n  So that I can verify the application functionality\n\n  Background:\n    Given the browser is open\n    And I navigate to the application\n\n  Scenario: " ++
    tc.title ++ "\n    " ++ generateGherkinSteps tc ++
    "\n\n# Step Definitions (Java)\n# File: " ++ featureName ++
    "Steps.java\n\npackage stepDefinitions;\n\nimport io.cucumber.java.en.*;\nimport org.openqa.selenium.WebDriver;\nimport org.openqa.selenium.chrome.ChromeDriver;\nimport org.openqa.selenium.support.ui.WebDriverWait;\nimport org.junit.Assert;\nimport java.time.Duration;\n\npublic class " ++
    featureName ++
    "Steps \x7b\n    \n    private WebDriver driver;\n    private WebDriverWait wait;\n    \n    @Before\n    public void setUp() \x7b\n        System.setProperty(\"webdriver.chrome.driver\", \"path/to/chromedriver\");\n        driver = new ChromeDriver();\n        wait = new WebDriverWait(driver, Duration.ofSeconds(10));\n        driver.manage().window().maximize();\n    \x7d\n    \n    @After\n    public void tearDown() \x7b\n        if (driver != null) \x7b\n            driver.quit();\n        \x7d\n    \x7d\n    \n    " ++
    generateJavaStepDefinitions tc ++
    "\n\x7d\n\n# Page Object Model\n# File: " ++ featureName ++
    "Page.java\n\npackage pageObjects;\n\nimport org.openqa.selenium.WebDriver;\nimport org.openqa.selenium.WebElement;\nimport org.openqa.selenium.support.FindBy;\nimport org.openqa.selenium.support.PageFactory;\n\npublic class " ++
    featureName ++ "Page \x7b\n    \n    private WebDriver driver;\n    \n    public " ++
    featureName ++
    "Page(WebDriver driver) \x7b\n        this.driver = driver;\n        PageFactory.initElements(driver, this);\n    \x7d\n    \n    // Add page elements and methods here\n    \n\x7d\n"

/-- Embeds `FileDownloadService.generateGherkinFile`. -/
def generateGherkinFile (tc : TestCase) : String :=
  "Feature: " ++ tc.title ++ "\n  " ++ tc.description ++
    "\n\n  Background:\n    Given the user is on the application\n    And the system is ready for testing\n\n  Scenario: " ++
    tc.title ++ "\n    " ++ generateGherkinSteps tc ++
    "\n\n  Scenario Outline: " ++ tc.title ++ " with different data\n    " ++
    generateGherkinSteps tc ++
    "\n    \n    Examples:\n      | data1 | data2 | expected |\n      | test1 | val1  | result1  |\n      | test2 | val2  | result2  |\n\n  @smoke @regression\n  Scenario: " ++
    tc.title ++
    " - Error Handling\n    Given the user is on the application\n    When an error occurs during the process\n    Then the system should handle the error gracefully\n    And display appropriate error messages\n"

/-- Embeds `FileDownloadService.generateFileContent`: dispatch on the format, with
verbatim content passthrough for unknown formats.  The `now` parameter is
consumed only by the pytest branch. -/
def generateFileContent (now : String) (tc : TestCase) : String :=
  if tc.format = "pytest" then generatePytestFile now tc
  else if tc.format = "selenium_bdd" then generateSeleniumBDDFiles tc
  else if tc.format = "gherkin" then generateGherkinFile tc
  else tc.content

/-- Embeds `FileDownloadService.generateFilename`: base name from the title
(`toLowerCase`, `\s+` to `_`, strip `[^a-z0-9_]`), then a format-specific
name pattern. -/
def generateFilename (tc : TestCase) : String :=
  let baseName :=
    String.mk ((squashWsUnderscore false (jsToLower tc.title).data).filter keepSnakeChar)
  if tc.format = "pytest" then "test_" ++ baseName ++ ".py"
  else if tc.format = "selenium_bdd" then baseName ++ ".feature"
  else if tc.format = "gherkin" then baseName ++ ".feature"
  else baseName ++ ".txt"

/-- A concrete pytest-format test case. -/
def tcPy : TestCase :=
  { id := "1"
    sessionId := "s"
    title := "My Test"
    description := "desc"
    steps := []
    format := "pytest"
    content := ""
    createdAt := "c" }

/-- The same test case in gherkin format. -/
def tcGk : TestCase := { tcPy with format := "gherkin" }

/-- A test case with an unknown format. -/
def tcOther : TestCase := { tcPy with format := "custom" }

/-- Claim C6 (counterexample).  The renderer is not a pure function of the
`TestCase`: the pytest branch stamps the current clock
(`Generated on: ...`) into the output, so two calls on the same `TestCase`
at different times produce different bytes. -/
theorem c6_counterexample :
    generateFileContent "2024-01-01T00:00:00.000Z" tcPy ≠
      generateFileContent "2024-01-01T00:00:01.000Z" tcPy := by
  decide

/-- Claim C6 (amended).  For every format other than `pytest`
(`selenium_bdd`, `gherkin`, and the verbatim passthrough) the renderer is a
pure function of the `TestCase`: repeated calls agree byte for byte
whatever the clock reads; only the pytest branch embeds the clock. -/
theorem c6_render_deterministic (tc : TestCase) (t1 t2 : String)
    (h : tc.format ≠ "pytest") :
    generateFileContent t1 tc = generateFileContent t2 tc := by
  unfold generateFileContent
  rw [if_neg h, if_neg h]

/-- Witness for `c6_render_deterministic` on a gherkin test case. -/
theorem c6_render_deterministic_witness :
    generateFileContent "2024-01-01T00:00:00.000Z" tcGk =
      generateFileContent "2024-01-01T00:00:01.000Z" tcGk :=
  c6_render_deterministic tcGk "2024-01-01T00:00:00.000Z"
    "2024-01-01T00:00:01.000Z" (by decide)

/-- Claim C8 (confirmed).  `generateGherkinSteps` renders each `TestStep`
through the keyword classifier: `click` anywhere in the action gives the
When-click clause; otherwise `input` or `type` gives the When-enter clause;
otherwise `navigate` gives the Given-navigate clause; otherwise the And
fallback clause, and the rendered block is the classified clauses joined
between the fixed header and footer lines. -/
theorem c8_gherkin_classification (step : TestStep) (tc : TestCase) :
    (containsSub "click" (jsToLower step.action) = true →
      gherkinStepClause step = "    When I click on \"" ++ step.element ++ "\"") ∧
    (containsSub "click" (jsToLower step.action) = false →
      (containsSub "input" (jsToLower step.action) = true ∨
        containsSub "type" (jsToLower step.action) = true) →
      gherkinStepClause step =
        "    When I enter \"" ++ jsOrDefault step.value "test data" ++
          "\" in \"" ++ step.element ++ "\"") ∧
    (containsSub "click" (jsToLower step.action) = false →
      containsSub "input" (jsToLower step.action) = false →
      containsSub "type" (jsToLower step.action) = false →
      containsSub "navigate" (jsToLower step.action) = true →
      gherkinStepClause step =
        "    Given I navigate to \"" ++ jsOrDefault step.value "the page" ++ "\"") ∧
    (containsSub "click" (jsToLower step.action) = false →
      containsSub "input" (jsToLower step.action) = false →
      containsSub "type" (jsToLower step.action) = false →
      containsSub "navigate" (jsToLower step.action) = false →
      gherkinStepClause step = "    And I " ++ jsToLower step.action) ∧
    generateGherkinSteps tc =
      "Given I am on the application page\n    " ++
        String.intercalate "\n" (tc.steps.map gherkinStepClause) ++
        "\n    Then I should see the expected results\n    And the page should be displayed correctly" := by
  refine ⟨?_, ?_, ?_, ?_, rfl⟩
  · intro h
    simp [gherkinStepClause, h]
  · intro h1 h2
    rcases h2 with h2 | h2 <;> simp [gherkinStepClause, h1, h2]
  · intro h1 h2 h3 h4
    simp [gherkinStepClause, h1, h2, h3, h4]
  · intro h1 h2 h3 h4
    simp [gherkinStepClause, h1, h2, h3, h4]

/-- A concrete click step. -/
def stepClick : TestStep :=
  { id := "s1"
    action := "Click the buy button"
    element := "#buy"
    value := none
    expected := "" }

/-- Witness for `c8_gherkin_classification` on a click step. -/
theorem c8_gherkin_classification_witness :
    gherkinStepClause stepClick =
      "    When I click on \"" ++ stepClick.element ++ "\"" :=
  (c8_gherkin_classification stepClick tcGk).1 (by decide)

/-- Claim C9 (counterexample).  For a format that is neither `pytest`,
`selenium_bdd` nor `gherkin` the filename ends in `.txt`, not `.feature` as
the claim's "every other format" reading requires. -/
theorem c9_counterexample :
    tcOther.format ≠ "pytest" ∧
    generateFilename tcOther = "my_test.txt" ∧
    generateFilename tcOther ≠ "my_test" ++ ".feature" := by
  refine ⟨by decide, by decide, by decide⟩

/-- Claim C9 (amended).  The filename is a deterministic function of title and
format: the base name lower-cases the title, turns whitespace runs into
underscores and strips the remaining non-`[a-z0-9_]` characters; pytest
prepends `test_` and appends `.py`; `selenium_bdd` and `gherkin` append
`.feature`; every other format appends `.txt`. -/
theorem c9_filename (tc : TestCase) :
    (tc.format = "pytest" →
      generateFilename tc = "test_" ++ toSnakeCase tc.title ++ ".py") ∧
    (tc.format = "selenium_bdd" ∨ tc.format = "gherkin" →
      generateFilename tc = toSnakeCase tc.title ++ ".feature") ∧
    (tc.format ≠ "pytest" → tc.format ≠ "selenium_bdd" → tc.format ≠ "gherkin" →
      generateFilename tc = toSnakeCase tc.title ++ ".txt") := by
  refine ⟨?_, ?_, ?_⟩
  · intro h
    unfold generateFilename
    rw [if_pos h]
    rfl
  · intro h
    unfold generateFilename
    rcases h with h | h
    · rw [if_neg (by rw [h]; decide), if_pos h]
      rfl
    · rw [if_neg (by rw [h]; decide), if_neg (by rw [h]; decide), if_pos h]
      rfl
  · intro h1 h2 h3
    unfold generateFilename
    rw [if_neg h1, if_neg h2, if_neg h3]
    rfl

/-- Witness for `c9_filename` on the pytest test case. -/
theorem c9_filename_witness :
    generateFilename tcPy = "test_" ++ toSnakeCase tcPy.title ++ ".py" :=
  (c9_filename tcPy).1 rfl

/-! Embedding of `getSelector` from the injected recording script. -/

/-- The attributes of one DOM element as seen by `getSelector`: tag name,
`id` and `className`, where the empty string models a falsy (absent)
attribute exactly as JS truthiness tests do. -/
structure ElemData : Type where
  tagName : String
  idAttr : String
  className : String
deriving DecidableEq, Repr

/-- JS `className.split(' ')[0]`: the first space-separated token. -/
def firstClassToken (cls : String) : String :=
  (splitOnCharAux ' ' cls.data []).headD ""

/-- The `while (element.parentNode)` loop of `getSelector`: an element is
paired with its ancestor chain (nearest parent first), and the loop body runs
exactly while a parent exists.  An id short-circuits with `tag#id`; a class
contributes `tag.firstToken`; plain tags contribute the lowercased tag. -/
def buildSelectorPath : ElemData → List ElemData → List String → List String
  | _, [], path => path
  | e, p :: rest, path =>
    if e.idAttr ≠ "" then (jsToLower e.tagName ++ "#" ++ e.idAttr) :: path
    else
      let sel :=
        if e.className ≠ "" then
          jsToLower e.tagName ++ "." ++ firstClassToken e.className
        else jsToLower e.tagName
      buildSelectorPath p rest (sel :: path)

/-- Embeds `getSelector` from the injected recording script: `#id` when the
element has an id, else `.` with the first class token, else the ancestor
path joined with `' > '`. -/
def getSelector (e : ElemData) (ancestors : List ElemData) : String :=
  if e.idAttr ≠ "" then "#" ++ e.idAttr
  else if e.className ≠ "" then "." ++ firstClassToken e.className
  else String.intercalate " > " (buildSelectorPath e ancestors [])

/-- Claim C7 (confirmed).  Selector resolution returns `'#' + id` for any
element with a (truthy) id — in particular `#search-button` for
`id="search-button"` — and otherwise `'.' +` the first class token for any
element with a class — in particular `.btn` for class `"btn primary"` with
no id. -/
theorem c7_selector (e : ElemData) (ancestors : List ElemData) :
    (e.idAttr ≠ "" → getSelector e ancestors = "#" ++ e.idAttr) ∧
    (e.idAttr = "" → e.className ≠ "" →
      getSelector e ancestors = "." ++ firstClassToken e.className) ∧
    getSelector
      { tagName := "button", idAttr := "search-button", className := "" } [] =
      "#search-button" ∧
    getSelector
      { tagName := "button", idAttr := "", className := "btn primary" } [] =
      ".btn" := by
  refine ⟨?_, ?_, by decide, by decide⟩
  · intro h
    unfold getSelector
    rw [if_pos h]
  · intro h1 h2
    unfold getSelector
    rw [if_neg (by simp [h1]), if_pos h2]

/-- Witness for `c7_selector` on two concrete elements. -/
theorem c7_selector_witness :
    getSelector { tagName := "div", idAttr := "x", className := "" } [] =
      "#" ++ "x" ∧
    getSelector { tagName := "div", idAttr := "", className := "a b" } [] =
      "." ++ firstClassToken "a b" :=
  ⟨(c7_selector { tagName := "div", idAttr := "x", className := "" } []).1
      (by decide),
   (c7_selector { tagName := "div", idAttr := "", className := "a b" } []).2.1
      rfl (by decide)⟩
